import Mathlib

/-!
Verification of the user-entity core of the portfolio backend
(`src/models/users.rs`): the `UserModel` / `UserInformation` data model,
the bcrypt-backed password helpers `hash_pswd` / `verify_pswd_hash`, the
validator-derive `validate` contract, and the three persistence
operations `create`, `find_by_pk`, `find`.

External crates (bcrypt, uuid, sqlx, serde_json, validator) are modelled
at their interfaces, faithfully to their documented behaviour at the
points the code exercises them; effectful Rust code is embedded with an
explicit `Outcome` type in which a `panic` (an `unwrap` that fails) is a
distinguished terminal result, and the Postgres table is a list of rows.
-/

namespace PortfolioBackend

/-! ### Small string helpers -/

/-- The decimal digit characters, needed to render numbers inside modelled
bcrypt hash strings. -/
def digitChar : Nat → Char
  | 0 => '0' | 1 => '1' | 2 => '2' | 3 => '3' | 4 => '4'
  | 5 => '5' | 6 => '6' | 7 => '7' | 8 => '8' | _ => '9'

/-- Decimal rendering worker, structurally recursive on a fuel bound that
always suffices (one division by ten per step). -/
def natDecimalAux : Nat → Nat → List Char
  | 0, _ => []
  | fuel + 1, n =>
    if n < 10 then [digitChar n]
    else natDecimalAux fuel (n / 10) ++ [digitChar (n % 10)]

/-- Decimal rendering of a natural number as a list of digit characters. -/
def natDecimal (n : Nat) : List Char := natDecimalAux (n + 1) n

/-- Hexadecimal digit characters (lowercase), as the uuid crate renders them. -/
def hexDigitChar (n : Nat) : Char :=
  if n < 10 then digitChar n
  else if n = 10 then 'a' else if n = 11 then 'b' else if n = 12 then 'c'
  else if n = 13 then 'd' else if n = 14 then 'e' else 'f'

/-- Value of a hexadecimal digit character, accepting both cases as the
uuid crate's parser does. -/
def hexVal (c : Char) : Option Nat :=
  if c.isDigit then some (c.toNat - 48)
  else if 'a' ≤ c && c ≤ 'f' then some (c.toNat - 97 + 10)
  else if 'A' ≤ c && c ≤ 'F' then some (c.toNat - 65 + 10)
  else none

/-- Accumulate a list of hex digit characters into a number; `none` when a
character is not a hex digit. -/
def hexToNat : List Char → Option Nat
  | [] => some 0
  | c :: cs =>
    match hexVal c, hexToNat cs with
    | some v, some rest => some (v * 16 ^ cs.length + rest)
    | _, _ => none

/-- Model of Rust `char::is_whitespace` (Unicode white space); the code
only ever meets the ASCII cases, the rest are listed for fidelity. -/
def isRustWhitespace (c : Char) : Bool :=
  c = ' ' || (9 ≤ c.toNat && c.toNat ≤ 13) ||
  [0x85, 0xA0, 0x1680, 0x2028, 0x2029, 0x202F, 0x205F, 0x3000].contains c.toNat ||
  (0x2000 ≤ c.toNat && c.toNat ≤ 0x200A)

/-- Model of Rust `str::trim`: remove whitespace from both ends. -/
def strTrim (s : String) : String :=
  ⟨((s.data.dropWhile isRustWhitespace).reverse.dropWhile isRustWhitespace).reverse⟩

/-- The single-quote character, which the `find` query builder substitutes
for double quotes in the built SQL text. -/
def squoteChar : Char := Char.ofNat 39

/-- The single-quote character as a one-character string. -/
def squote : String := String.mk [squoteChar]

/-! ### serde_json values

Model of `serde_json::Value` as the `find` operation consumes it: the
payload is a JSON document; `Value`'s `Display` renders it in compact
form, strings quoted and escaped. -/

/-- Model of `serde_json::Value`. Numbers are modelled as integers; the
claims only exercise string values. -/
inductive Json where
  | null
  | bool (b : Bool)
  | num (n : Int)
  | str (s : String)
  | arr (xs : List Json)
  | obj (kvs : List (String × Json))

/-- serde_json's escaping of one character inside a rendered string. -/
def escapeJsonChar (c : Char) : List Char :=
  if c = '"' then ['\\', '"']
  else if c = '\\' then ['\\', '\\']
  else if c.toNat = 10 then ['\\', 'n']
  else if c.toNat = 13 then ['\\', 'r']
  else if c.toNat = 9 then ['\\', 't']
  else if c.toNat = 8 then ['\\', 'b']
  else if c.toNat = 12 then ['\\', 'f']
  else if c.toNat < 32 then
    ['\\', 'u', '0', '0', hexDigitChar (c.toNat / 16), hexDigitChar (c.toNat % 16)]
  else [c]

/-- serde_json's escaping of a whole string body. -/
def escapeJson (s : String) : String :=
  ⟨(s.data.map escapeJsonChar).flatten⟩

mutual

/-- Compact rendering of a JSON value, as `format!("{value}")` produces it
through `serde_json::Value`'s `Display` instance. -/
def renderJson : Json → String
  | .null => "null"
  | .bool true => "true"
  | .bool false => "false"
  | .num n => toString n
  | .str s => "\"" ++ escapeJson s ++ "\""
  | .arr xs => "[" ++ renderJsonList xs ++ "]"
  | .obj kvs => "\x7b" ++ renderJsonKvs kvs ++ "\x7d"

/-- Compact rendering of the elements of a JSON array. -/
def renderJsonList : List Json → String
  | [] => ""
  | [x] => renderJson x
  | x :: xs => renderJson x ++ "," ++ renderJsonList xs

/-- Compact rendering of the members of a JSON object. -/
def renderJsonKvs : List (String × Json) → String
  | [] => ""
  | [(k, v)] => "\"" ++ escapeJson k ++ "\":" ++ renderJson v
  | (k, v) :: kvs => "\"" ++ escapeJson k ++ "\":" ++ renderJson v ++ "," ++ renderJsonKvs kvs

end

/-! ### Enumerations and the data model -/

/-- `AccountStatus`: the user's account status enumeration. -/
inductive AccountStatus where
  | Active | Inactive | Suspended | Deactivated
deriving DecidableEq, Repr

/-- `UserGender`: the user's gender enumeration. -/
inductive UserGender where
  | Male | Others | Female | Unspecified
deriving DecidableEq, Repr

/-- `impl Default for UserGender`: the default gender is `Unspecified`. -/
instance : Inhabited UserGender := ⟨UserGender.Unspecified⟩

/-- Rust `UserGender::default()`. -/
def UserGender.default : UserGender := .Unspecified

/-- A `Uuid` is a 128-bit value; modelled by its numeric value. -/
abbrev Uuid := Nat

/-- `UserModel`: the stored user row, as `sqlx::FromRow` materialises it.
`NaiveDate` is modelled as days since the epoch (its Rust `Default` is
1970-01-01, i.e. `0`), `NaiveDateTime` as seconds since the epoch. -/
structure UserModel where
  id : Uuid
  firstname : Option String
  lastname : Option String
  middlename : Option String
  fullname : Option String
  username : Option String
  email : Option String
  account_status : Option AccountStatus
  date_of_birth : Option Int
  gender : Option UserGender
  avatar : Option String
  phone_number : Option String
  password : Option String
  created_at : Option Int
  updated_at : Option Int
  otp_id : Option Uuid
  last_available_at : Option Int
deriving DecidableEq, Repr

/-- `UserInformation`: the attributes payload accepted from a caller. -/
structure UserInformation where
  firstname : Option String
  lastname : Option String
  middlename : Option String
  fullname : Option String
  username : Option String
  email : Option String
  account_status : Option AccountStatus
  date_of_birth : Option Int
  gender : Option UserGender
  avatar : Option String
  phone_number : Option String
  password : Option String
  created_at : Option Int
  updated_at : Option Int
  last_available_at : Option Int
deriving DecidableEq, Repr

/-! ### Outcomes of effectful Rust code

A call either returns a value, returns an `sqlx::Error`, or panics (a
failing `unwrap`). -/

/-- The sqlx errors this code can surface: `RowNotFound` from `fetch_one`
on an empty result set, and a database-reported unique-constraint
violation. -/
inductive SqlxError where
  | rowNotFound
  | uniqueViolation
deriving DecidableEq, Repr

/-- Result of running a piece of effectful Rust code: a value, an
`sqlx::Error`, or a panic from a failing `unwrap`. -/
inductive Outcome (α : Type) where
  | ok (value : α)
  | err (e : SqlxError)
  | panicked
deriving DecidableEq, Repr

/-! ### bcrypt model

The bcrypt crate is modelled at its interface: `hash` salts and digests
the (72-byte-truncated) input and renders a `$2b$12$<salt>$<digest>`
string; `verify` parses the stored string, recomputes the digest of the
candidate under the stored salt and compares. The digest of a password is
modelled as the truncated password itself, which is exactly as injective
as bcrypt is collision-free; a string not produced by `hash` fails to
parse and makes `verify` return an error, as the crate does on a corrupt
hash. -/

/-- bcrypt truncates its input to 72 bytes before digesting. -/
def trunc72 (s : String) : String := ⟨s.data.take 72⟩

/-- Render a modelled bcrypt hash string of the given salt and password.
`12` is `DEFAULT_COST`. -/
def renderHash (salt : Nat) (pw : String) : String :=
  ⟨'$' :: '2' :: 'b' :: '$' :: '1' :: '2' :: '$' ::
    (natDecimal salt ++ '$' :: (trunc72 pw).data)⟩

/-- Parse the part of a modelled bcrypt hash string after the `$2b$12$`
scheme prefix: the salt digits, a `$`, then the digest. -/
def parseBcryptTail (rest : List Char) : Option (List Char × List Char) :=
  match rest.dropWhile Char.isDigit with
  | '$' :: digest => some (rest.takeWhile Char.isDigit, digest)
  | _ => none

/-- Parse a modelled bcrypt hash string into its salt digits and digest;
`none` when the string is not in the image of `renderHash` (a corrupt
stored hash). -/
def parseBcryptHash (s : String) : Option (List Char × List Char) :=
  match s.data with
  | c1 :: c2 :: c3 :: c4 :: c5 :: c6 :: c7 :: rest =>
    if [c1, c2, c3, c4, c5, c6, c7] = ['$', '2', 'b', '$', '1', '2', '$'] then
      parseBcryptTail rest
    else none
  | _ => none

/-- Model of `bcrypt::verify(candidate, stored)`: `Err` on a corrupt
stored hash, otherwise whether the candidate's digest under the stored
salt matches the stored digest. -/
def bcryptVerify (candidate : String) (stored : String) : Except Unit Bool :=
  match parseBcryptHash stored with
  | none => .error ()
  | some (_, digest) => .ok (decide ((trunc72 candidate).data = digest))

/-! ### `UserModel` password helpers -/

/-- `UserModel::hash_pswd(password)`: `password.unwrap()` (panic when
absent), then `bcrypt::hash(password.trim(), DEFAULT_COST).unwrap()`.
With a valid cost the crate's `hash` does not fail, so that second
`unwrap` succeeds; the salt the crate draws at random is passed
explicitly here. -/
def hash_pswd (salt : Nat) (password : Option String) : Outcome String :=
  match password with
  | none => .panicked
  | some pw => .ok (renderHash salt (strTrim pw))

/-- `UserModel::verify_pswd_hash(&self, raw_password)`:
`self.password.as_ref().unwrap()` (panic when the stored password is
absent), then `bcrypt::verify(raw_password, stored).ok().unwrap()`
(panic when `verify` returns an error). -/
def verify_pswd_hash (u : UserModel) (raw_password : String) : Outcome Bool :=
  match u.password with
  | none => .panicked
  | some stored =>
    match bcryptVerify raw_password stored with
    | .error _ => .panicked
    | .ok b => .ok b

/-! ### Validator model

`UserInformation` derives `Validate` with per-field rules. The leaf
format checks live in the validator crate; they are modelled here on the
shape the crate documents: an email is `user@domain` with a non-empty
user part and a dot-separated domain of alphanumeric-or-hyphen labels; a
url has an alphabetic scheme followed by `://` and a non-empty
remainder; a phone number is E.164-shaped, `+` then 8 to 15 digits not
starting with 0. -/

/-- Split a character list at every occurrence of a separator character. -/
def splitOnChar (sep : Char) : List Char → List (List Char)
  | [] => [[]]
  | c :: rest =>
    match splitOnChar sep rest with
    | [] => [[]]
    | g :: gs => if c = sep then [] :: g :: gs else (c :: g) :: gs

/-- Split a character list at the first `://`, into the part before and
the part after; `none` when no `://` occurs. -/
def splitScheme : List Char → Option (List Char × List Char)
  | ':' :: '/' :: '/' :: rest => some ([], rest)
  | c :: rest =>
    match splitScheme rest with
    | none => none
    | some (pre, post) => some (c :: pre, post)
  | [] => none

/-- Model of the validator crate's email format check. -/
def isValidEmail (s : String) : Bool :=
  match splitOnChar '@' s.data with
  | [user, domain] =>
    user ≠ [] && user.length ≤ 64 && user.all (fun c => !isRustWhitespace c) &&
    domain ≠ [] && domain.length ≤ 255 &&
    (splitOnChar '.' domain).all (fun lab => lab ≠ [] && lab.all (fun c => c.isAlphanum || c = '-'))
  | _ => false

/-- Model of the validator crate's url format check (the url crate's
parser accepting a scheme, `://`, and a non-empty remainder). -/
def isValidUrl (s : String) : Bool :=
  match splitScheme s.data with
  | some (scheme, rest) => scheme ≠ [] && scheme.all Char.isAlpha && rest ≠ []
  | none => false

/-- Model of the validator crate's phone check on E.164-shaped input. -/
def isValidPhone (s : String) : Bool :=
  match s.data with
  | '+' :: ds => decide (8 ≤ ds.length) && decide (ds.length ≤ 15) &&
      ds.all Char.isDigit && (ds.headD '0') ≠ '0'
  | _ => false

/-- The rule a violation reports: the identifiers of the derive
attributes `required`, `length`, `email`, `url`, `phone`. -/
inductive RuleKind where
  | required | lengthMin (min : Nat) | email | url | phone
deriving DecidableEq, Repr

/-- A validation violation: the field it is keyed by and the rule that
failed. -/
structure Violation where
  field : String
  rule : RuleKind
deriving DecidableEq, Repr

/-- `#[validate(required, length(min = 1))]` on an optional string field:
absent fields violate `required`; present fields shorter than the bound
violate `length`. -/
def checkRequiredMinLen (field : String) (min : Nat) : Option String → List Violation
  | none => [⟨field, .required⟩]
  | some s => if s.length < min then [⟨field, .lengthMin min⟩] else []

/-- `#[validate(required, email)]` on the email field. -/
def checkRequiredEmail (field : String) : Option String → List Violation
  | none => [⟨field, .required⟩]
  | some s => if isValidEmail s then [] else [⟨field, .email⟩]

/-- `#[validate(url)]` on the optional avatar field. -/
def checkUrl (field : String) : Option String → List Violation
  | none => []
  | some s => if isValidUrl s then [] else [⟨field, .url⟩]

/-- `#[validate(phone)]` on the optional phone-number field. -/
def checkPhone (field : String) : Option String → List Violation
  | none => []
  | some s => if isValidPhone s then [] else [⟨field, .phone⟩]

/-- `UserInformation::validate()`: evaluate every field's declared rules
and collect every violation; the empty list is the `Ok(())` outcome. -/
def validate (u : UserInformation) : List Violation :=
  checkRequiredMinLen "firstname" 1 u.firstname ++
  checkRequiredMinLen "lastname" 1 u.lastname ++
  checkRequiredMinLen "middlename" 1 u.middlename ++
  checkRequiredMinLen "fullname" 1 u.fullname ++
  checkRequiredMinLen "username" 1 u.username ++
  checkRequiredEmail "email" u.email ++
  checkUrl "avatar" u.avatar ++
  checkPhone "phone_number" u.phone_number ++
  checkRequiredMinLen "password" 8 u.password

/-! ### uuid model

`Uuid::parse_str` accepts the two standard textual forms: the simple
form of 32 hex digits, and the hyphenated 8-4-4-4-12 form; anything else
is a parse error. `Uuid::new_v4` draws a fresh random value; it is
passed explicitly to `create`. -/

/-- Extract the 32 hex digit characters of a uuid string, validating the
hyphen layout of the hyphenated form. -/
def uuidHexDigits (cs : List Char) : Option (List Char) :=
  if cs.length = 32 then some cs
  else if cs.length = 36 then
    let g1 := cs.take 8
    match cs.drop 8 with
    | '-' :: r1 =>
      let g2 := r1.take 4
      match r1.drop 4 with
      | '-' :: r2 =>
        let g3 := r2.take 4
        match r2.drop 4 with
        | '-' :: r3 =>
          let g4 := r3.take 4
          match r3.drop 4 with
          | '-' :: g5 => some (g1 ++ g2 ++ g3 ++ g4 ++ g5)
          | _ => none
        | _ => none
      | _ => none
    | _ => none
  else none

/-- Model of `Uuid::parse_str`. -/
def uuidParseStr (s : String) : Option Uuid :=
  match uuidHexDigits s.data with
  | none => none
  | some ds => hexToNat ds

/-- Render a uuid value in its canonical hyphenated lowercase form, as
its serde serialization produces. -/
def uuidRender (n : Uuid) : String :=
  let ds := (List.range 32).map (fun i => hexDigitChar ((n / 16 ^ (31 - i)) % 16))
  ⟨ds.take 8 ++ '-' :: ((ds.drop 8).take 4 ++ '-' :: ((ds.drop 12).take 4 ++
    '-' :: ((ds.drop 16).take 4 ++ '-' :: ds.drop 20)))⟩

/-! ### Persistence operations

The Postgres table `user_information` is modelled as a list of stored
rows with a unique constraint on `email`; each operation is a single
statement, run through `fetch_one`, which turns an empty result set into
`sqlx::Error::RowNotFound`. -/

/-- `NULLIF(value, '')`: an empty string is stored as NULL. -/
def strOrNone (s : String) : Option String :=
  if s = "" then none else some s

/-- `Create::create(fields, db_connection)` for `UserModel`: destructure
the attributes, hash the password (`hash_pswd` panics when it is
absent), and run the INSERT with `NULLIF` coercions and
`ON CONFLICT (email) DO NOTHING RETURNING *` through `fetch_one`.
When a stored row already holds the same (non-null) email the insert is
a no-op, no row is returned, and `fetch_one` yields `RowNotFound`; a
collision on the primary key itself is outside the conflict clause and
surfaces as a unique-violation database error. The freshly drawn
`Uuid::new_v4` and bcrypt salt are passed explicitly. Server-managed
columns (`account_status`, timestamps, `otp_id`) come from table
defaults that live in the migrations, outside the visible source; they
are modelled as absent. -/
def create (id : Uuid) (salt : Nat) (fields : UserInformation)
    (db : List UserModel) : Outcome UserModel × List UserModel :=
  match fields.password with
  | none => (.panicked, db)
  | some pw =>
    let hashed := renderHash salt (strTrim pw)
    let email := strTrim (fields.email.getD "")
    if db.any (fun r => r.email = some email) then
      (.err .rowNotFound, db)
    else if db.any (fun r => r.id = id) then
      (.err .uniqueViolation, db)
    else
      let row : UserModel :=
        { id := id
          firstname := strOrNone (fields.firstname.getD "")
          lastname := strOrNone (fields.lastname.getD "")
          middlename := strOrNone (fields.middlename.getD "")
          fullname := strOrNone (fields.fullname.getD "")
          username := strOrNone (fields.username.getD "")
          email := some email
          account_status := none
          date_of_birth := some (fields.date_of_birth.getD 0)
          gender := some (fields.gender.getD UserGender.default)
          avatar := strOrNone (fields.avatar.getD "")
          phone_number := strOrNone (fields.phone_number.getD "")
          password := strOrNone hashed
          created_at := none
          updated_at := none
          otp_id := none
          last_available_at := none }
      (.ok row, db ++ [row])

/-- `FindByPk::find_by_pk(id, db_connection)` for `UserModel`:
`Uuid::parse_str(id).unwrap()` — a panic on a malformed identity — then
`SELECT * FROM user_information WHERE id = $1` through `fetch_one`,
which yields `RowNotFound` when no row has that primary key. -/
def find_by_pk (id : String) (db : List UserModel) : Outcome UserModel :=
  match uuidParseStr id with
  | none => .panicked
  | some uuid =>
    match db.find? (fun r => r.id = uuid) with
    | some row => .ok row
    | none => .err .rowNotFound

/-- `Find::find(fields, db_connection)` builds its SQL text by string
concatenation: starting from `SELECT * FROM user_information WHERE `, it
appends `{key} = {value} AND ` for each member of the payload object
(the value rendered by `serde_json::Value`'s `Display`), drops the last
four characters, and replaces every double quote by a single quote.
serde_json's default map iterates its members in sorted key order; the
members are modelled as the association list in iteration order. -/
def buildFindQuery (kvs : List (String × Json)) : String :=
  let q := kvs.foldl
    (fun acc kv => acc ++ kv.1 ++ " = " ++ renderJson kv.2 ++ " AND ")
    "SELECT * FROM user_information WHERE "
  let q : String := ⟨q.data.take (q.data.length - 4)⟩
  ⟨q.data.map (fun c => if c = '"' then squoteChar else c)⟩

/-- A statement as it reaches the storage engine: its SQL text and how
many values were bound as parameters alongside it. -/
structure IssuedQuery where
  text : String
  paramCount : Nat
deriving DecidableEq, Repr

/-- The storage-boundary behaviour of `Find::find`:
`fields.as_object().unwrap()` panics when the payload is not a JSON
object; otherwise the concatenated query text is issued with no bound
parameters (`sqlx::query_as(&sql_query)` carries no `.bind` calls).
What the engine then does with the raw text is beyond this model; the
claims concern how the statement is constructed. -/
def findIssued (fields : Json) : Outcome IssuedQuery :=
  match fields with
  | .obj kvs => .ok ⟨buildFindQuery kvs, 0⟩
  | _ => .panicked

/-! ### serde serialization of `UserModel`

`UserModel` derives `Serialize` with `rename_all = "camelCase"`;
`password` and `otp_id` carry `#[serde(skip_serializing)]`. Absent
options serialize as `null` (there is no `skip_serializing_if`); the
enums serialize as their variant names; chrono values serialize through
their own formats, abstracted here as numbers. -/

/-- serde serialization of an optional string. -/
def jsonOfOptStr : Option String → Json
  | none => .null
  | some s => .str s

/-- serde serialization of an optional chrono value (format abstracted). -/
def jsonOfOptInt : Option Int → Json
  | none => .null
  | some n => .num n

/-- The serde name of an `AccountStatus` variant. -/
def accountStatusName : AccountStatus → String
  | .Active => "Active" | .Inactive => "Inactive"
  | .Suspended => "Suspended" | .Deactivated => "Deactivated"

/-- The serde name of a `UserGender` variant. -/
def userGenderName : UserGender → String
  | .Male => "Male" | .Others => "Others"
  | .Female => "Female" | .Unspecified => "Unspecified"

/-- The externally serialized representation of a `UserModel`: the
key/value members of the JSON object serde produces, in field order,
with the camelCase external names; `password` and `otp_id` are skipped. -/
def serializeUserModel (u : UserModel) : List (String × Json) :=
  [("id", .str (uuidRender u.id)),
   ("firstname", jsonOfOptStr u.firstname),
   ("lastname", jsonOfOptStr u.lastname),
   ("middlename", jsonOfOptStr u.middlename),
   ("fullname", jsonOfOptStr u.fullname),
   ("username", jsonOfOptStr u.username),
   ("email", jsonOfOptStr u.email),
   ("accountStatus", match u.account_status with
     | none => .null | some a => .str (accountStatusName a)),
   ("dateOfBirth", jsonOfOptInt u.date_of_birth),
   ("gender", match u.gender with
     | none => .null | some g => .str (userGenderName g)),
   ("avatar", jsonOfOptStr u.avatar),
   ("phoneNumber", jsonOfOptStr u.phone_number),
   ("createdAt", jsonOfOptInt u.created_at),
   ("updatedAt", jsonOfOptInt u.updated_at),
   ("lastAvailableAt", jsonOfOptInt u.last_available_at)]

/-- The external camelCase names of all seventeen declared fields of
`UserModel`, in declaration order. -/
def userModelFieldKeys : List String :=
  ["id", "firstname", "lastname", "middlename", "fullname", "username",
   "email", "accountStatus", "dateOfBirth", "gender", "avatar",
   "phoneNumber", "password", "createdAt", "updatedAt", "otpId",
   "lastAvailableAt"]

/-! ### Spec-side predicates and concrete fixtures -/

/-- The fields `UserInformation` declares `required`: the spec names
firstname, lastname, middlename, fullname, username, email, password. -/
def requiredFields : List String :=
  ["firstname", "lastname", "middlename", "fullname", "username", "email", "password"]

/-- The value a payload holds for a required field, by field name. -/
def requiredFieldValue (u : UserInformation) (f : String) : Option String :=
  if f = "firstname" then u.firstname
  else if f = "lastname" then u.lastname
  else if f = "middlename" then u.middlename
  else if f = "fullname" then u.fullname
  else if f = "username" then u.username
  else if f = "email" then u.email
  else if f = "password" then u.password
  else none

/-- An optional field that is present and whose value satisfies `p`. -/
def optSatisfies (p : String → Bool) : Option String → Bool
  | none => false
  | some s => p s

/-- An optional field that, when present, satisfies `p`. -/
def presentOrSatisfies (p : String → Bool) : Option String → Bool
  | none => true
  | some s => p s

/-- The hypothesis of the spec's success property, in the spec's words:
every required field is present and well-formed — a valid email, names of
length at least 1, a password of length at least 8 — and the phone number
is in E.164 form. -/
def specRequiredWellFormed (u : UserInformation) : Bool :=
  optSatisfies (fun s => decide (1 ≤ s.length)) u.firstname &&
  optSatisfies (fun s => decide (1 ≤ s.length)) u.lastname &&
  optSatisfies (fun s => decide (1 ≤ s.length)) u.middlename &&
  optSatisfies (fun s => decide (1 ≤ s.length)) u.fullname &&
  optSatisfies (fun s => decide (1 ≤ s.length)) u.username &&
  optSatisfies isValidEmail u.email &&
  optSatisfies (fun s => decide (8 ≤ s.length)) u.password &&
  optSatisfies isValidPhone u.phone_number

/-- Any avatar the payload carries is a well-formed URL. -/
def avatarWellFormed (u : UserInformation) : Bool :=
  presentOrSatisfies isValidUrl u.avatar

/-- A stored row with every optional column absent. -/
def baseUser : UserModel :=
  { id := 0, firstname := none, lastname := none, middlename := none,
    fullname := none, username := none, email := none,
    account_status := none, date_of_birth := none, gender := none,
    avatar := none, phone_number := none, password := none,
    created_at := none, updated_at := none, otp_id := none,
    last_available_at := none }

/-- A stored row whose password column holds the given string. -/
def pwUser (h : String) : UserModel := { baseUser with password := some h }

/-- An attributes payload with every field absent, as the repository's own
`gen_empty_user` test fixture builds it. -/
def emptyInfo : UserInformation :=
  { firstname := none, lastname := none, middlename := none,
    fullname := none, username := none, email := none,
    account_status := none, date_of_birth := none, gender := none,
    avatar := none, phone_number := none, password := none,
    created_at := none, updated_at := none, last_available_at := none }

/-- The spec's end-to-end attributes payload: every required field present
and well-formed, phone in E.164 form, no avatar. -/
def wellFormedInfo : UserInformation :=
  { emptyInfo with
    firstname := some "A", lastname := some "B", middlename := some "C",
    fullname := some "A B C", username := some "ab",
    email := some "a@b.co", phone_number := some "+14155550000",
    password := some "password1" }

/-- The end-to-end payload with an avatar that is not a well-formed URL;
every required field is still present and well-formed. -/
def badAvatarInfo : UserInformation :=
  { wellFormedInfo with avatar := some "x" }

/-- The predicate value crafted to contain query-control characters:
`a' OR '1'='1`. -/
def craftedValue : String :=
  "a" ++ squote ++ " OR " ++ squote ++ "1" ++ squote ++ "=" ++ squote ++ "1"

/-- The predicate payload carrying the crafted value under the `email`
key. -/
def craftedPayload : Json := .obj [("email", .str craftedValue)]

/-- The SQL text `find` issues for the crafted payload:
`SELECT * FROM user_information WHERE email = 'a' OR '1'='1' ` — the
crafted value spliced verbatim into the query text as control syntax. -/
def craftedQueryText : String :=
  "SELECT * FROM user_information WHERE email = " ++ squote ++ "a" ++
  squote ++ " OR " ++ squote ++ "1" ++ squote ++ "=" ++ squote ++ "1" ++
  squote ++ " "

/-- The SQL text `find` issues for a predicate on the unknown field name
`surname`: `SELECT * FROM user_information WHERE surname = 'x' `. -/
def unknownFieldQueryText : String :=
  "SELECT * FROM user_information WHERE surname = " ++ squote ++ "x" ++ squote ++ " "

/-! ### Supporting lemmas -/

/-- Every character `digitChar` produces is a digit. -/
theorem digitChar_isDigit (k : Nat) : (digitChar k).isDigit = true := by
  unfold digitChar
  split <;> decide

/-- Every character of a decimal rendering is a digit, whatever the fuel. -/
theorem natDecimalAux_digits (fuel n : Nat) :
    ∀ c ∈ natDecimalAux fuel n, c.isDigit = true := by
  induction fuel generalizing n with
  | zero => intro c hc; simp [natDecimalAux] at hc
  | succ fuel ih =>
    rw [natDecimalAux]
    split
    · intro c hc
      simp only [List.mem_singleton] at hc
      subst hc
      exact digitChar_isDigit _
    · intro c hc
      rw [List.mem_append] at hc
      rcases hc with hc | hc
      · exact ih (n / 10) c hc
      · simp only [List.mem_singleton] at hc
        subst hc
        exact digitChar_isDigit _

/-- Every character of a decimal rendering is a digit. -/
theorem natDecimal_digits (n : Nat) : ∀ c ∈ natDecimal n, c.isDigit = true :=
  natDecimalAux_digits (n + 1) n

/-- `takeWhile` over a satisfied block followed by a failing head stops
exactly at the block. -/
theorem takeWhile_append_halt (p : Char → Bool) (l1 l2 : List Char) (c0 : Char)
    (h1 : ∀ c ∈ l1, p c = true) (h2 : p c0 = false) :
    (l1 ++ c0 :: l2).takeWhile p = l1 := by
  induction l1 with
  | nil => simp [List.takeWhile_cons, h2]
  | cons a l ih =>
    have ha := h1 a (by simp)
    simp only [List.cons_append, List.takeWhile_cons, ha, if_true]
    rw [ih (fun c hc => h1 c (by simp [hc]))]

/-- `dropWhile` over a satisfied block followed by a failing head drops
exactly the block. -/
theorem dropWhile_append_halt (p : Char → Bool) (l1 l2 : List Char) (c0 : Char)
    (h1 : ∀ c ∈ l1, p c = true) (h2 : p c0 = false) :
    (l1 ++ c0 :: l2).dropWhile p = c0 :: l2 := by
  induction l1 with
  | nil => simp [List.dropWhile_cons, h2]
  | cons a l ih =>
    have ha := h1 a (by simp)
    simp only [List.cons_append, List.dropWhile_cons, ha, if_true]
    exact ih (fun c hc => h1 c (by simp [hc]))

/-- Parsing a rendered hash recovers its salt digits and its digest. -/
theorem parseBcryptHash_renderHash (salt : Nat) (pw : String) :
    parseBcryptHash (renderHash salt pw) = some (natDecimal salt, (trunc72 pw).data) := by
  show parseBcryptTail (natDecimal salt ++ '$' :: (trunc72 pw).data) = _
  unfold parseBcryptTail
  rw [dropWhile_append_halt _ _ _ _ (natDecimal_digits salt) (by decide),
    takeWhile_append_halt _ _ _ _ (natDecimal_digits salt) (by decide)]
  rfl

/-- Verifying a password against its own rendered hash succeeds. -/
theorem bcryptVerify_renderHash (salt : Nat) (pw : String) :
    bcryptVerify pw (renderHash salt pw) = .ok true := by
  unfold bcryptVerify
  rw [parseBcryptHash_renderHash]
  simp

/-- A required-with-minimum-length rule is satisfied by a present value of
sufficient length. -/
theorem checkRequiredMinLen_eq_nil (field : String) (min : Nat) (v : Option String)
    (h : optSatisfies (fun s => decide (min ≤ s.length)) v = true) :
    checkRequiredMinLen field min v = [] := by
  cases v with
  | none => simp [optSatisfies] at h
  | some s =>
    simp only [optSatisfies, decide_eq_true_eq] at h
    have hnot : ¬ s.length < min := Nat.not_lt.mpr h
    simp only [checkRequiredMinLen, if_neg hnot]

/-- The required-email rule is satisfied by a present valid address. -/
theorem checkRequiredEmail_eq_nil (field : String) (v : Option String)
    (h : optSatisfies isValidEmail v = true) :
    checkRequiredEmail field v = [] := by
  cases v with
  | none => simp [optSatisfies] at h
  | some s =>
    simp only [optSatisfies] at h
    simp only [checkRequiredEmail, if_pos h]

/-- The url rule is satisfied when any present value is a valid URL. -/
theorem checkUrl_eq_nil (field : String) (v : Option String)
    (h : presentOrSatisfies isValidUrl v = true) :
    checkUrl field v = [] := by
  cases v with
  | none => rfl
  | some s =>
    simp only [presentOrSatisfies] at h
    simp only [checkUrl, if_pos h]

/-- The phone rule is satisfied when any present value is E.164-shaped. -/
theorem checkPhone_eq_nil (field : String) (v : Option String)
    (h : presentOrSatisfies isValidPhone v = true) :
    checkPhone field v = [] := by
  cases v with
  | none => rfl
  | some s =>
    simp only [presentOrSatisfies] at h
    simp only [checkPhone, if_pos h]

/-- A present-and-satisfying field in particular satisfies its rule when
present. -/
theorem presentOrSatisfies_of_optSatisfies (p : String → Bool) (v : Option String)
    (h : optSatisfies p v = true) : presentOrSatisfies p v = true := by
  cases v with
  | none => simp [optSatisfies] at h
  | some s => exact h

/-! ### The claims -/

/-- C1. The spec requires `find` to bind every predicate value as a
parameter so that a value crafted to contain query-control characters
cannot affect query structure. The code instead splices the rendered
value into the SQL text by string formatting: for the payload
`{"email": "a' OR '1'='1"}` the statement that reaches storage is the
raw text `SELECT * FROM user_information WHERE email = 'a' OR '1'='1' `
with zero bound parameters — the crafted value has become query syntax. -/
theorem find_interpolates_crafted_value :
    findIssued craftedPayload = .ok ⟨craftedQueryText, 0⟩ ∧
    (" OR ".data).IsInfix craftedQueryText.data := by
  constructor
  · rfl
  · decide

/-- C2. The spec requires `find` to reject a predicate whose key is not
an allow-listed column name with a client error, issuing no query. The
code has no allow-list: for the payload `{"surname": "x"}` — `surname`
is not a column of `user_information` — it still issues
`SELECT * FROM user_information WHERE surname = 'x' ` against storage. -/
theorem find_issues_query_for_unknown_field :
    findIssued (.obj [("surname", .str "x")]) = .ok ⟨unknownFieldQueryText, 0⟩ := by
  rfl

/-- C3. The spec requires `find_by_pk` to fail with `InvalidIdentity` on
a syntactically invalid identity, without crashing. The code unwraps
`Uuid::parse_str` and panics on the malformed identity `not-a-uuid`
(before any storage round-trip); only the second half of the claim
holds: a well-formed but absent identity yields `RowNotFound`. -/
theorem find_by_pk_panics_on_invalid_identity :
    uuidParseStr "not-a-uuid" = none ∧
    find_by_pk "not-a-uuid" [] = .panicked ∧
    find_by_pk "00000000-0000-0000-0000-000000000000" [] = .err .rowNotFound := by
  refine ⟨rfl, rfl, rfl⟩

/-- C4. The spec requires any internal verification error (a corrupt
stored hash) to be treated as a verification failure, returning `false`.
The code unwraps `bcrypt::verify(..).ok()` and panics instead: for a
stored password that is not a well-formed bcrypt hash, verification of
any candidate panics rather than returning `false`. -/
theorem verify_pswd_hash_panics_on_corrupt_hash :
    parseBcryptHash "not-a-bcrypt-hash" = none ∧
    verify_pswd_hash (pwUser "not-a-bcrypt-hash") "secret" = .panicked := by
  refine ⟨rfl, rfl⟩

/-- C5. A `create` whose email collides with a stored row is a no-op at
the storage layer: `ON CONFLICT (email) DO NOTHING` suppresses the
uniqueness error, no row is returned, `fetch_one` reports `RowNotFound`
— not a unique-violation error — and the table is unchanged, an outcome
distinguishable from a true success, which returns a row. -/
theorem create_conflicting_email_is_noop (id : Uuid) (salt : Nat)
    (fields : UserInformation) (db : List UserModel) (pw : String)
    (hpw : fields.password = some pw)
    (hcollide : db.any (fun r => r.email = some (strTrim (fields.email.getD ""))) = true) :
    create id salt fields db = (.err .rowNotFound, db) := by
  unfold create
  rw [hpw]
  simp only [hcollide, if_true]

/-- Witness for C5: creating a second user with the already-stored email
`a@b.co` returns no row and leaves the table unchanged. -/
theorem create_conflicting_email_is_noop_witness :
    create 1 0 wellFormedInfo [{ baseUser with email := some "a@b.co" }] =
      (.err .rowNotFound, [{ baseUser with email := some "a@b.co" }]) :=
  create_conflicting_email_is_noop 1 0 wellFormedInfo _ "password1" rfl (by decide)

/-- C6 as stated is false: `hash_pswd` trims surrounding whitespace
before hashing but `verify_pswd_hash` does not trim the candidate, so
for the non-empty cleartext `" a"` the hash digests `"a"` and verifying
`" a"` against it returns `false`, not `true`. -/
theorem hash_verify_roundtrip_fails_with_whitespace :
    (" a" ≠ "") ∧
    hash_pswd 0 (some " a") = .ok "$2b$12$0$a" ∧
    verify_pswd_hash (pwUser "$2b$12$0$a") " a" = .ok false := by
  refine ⟨by decide, rfl, rfl⟩

/-- C6 amended: for every non-empty cleartext without surrounding
whitespace (so that trimming leaves it unchanged), hashing and then
verifying the same cleartext against the resulting hash returns `true`,
whatever salt the hashing drew. -/
theorem hash_then_verify_roundtrip (salt : Nat) (p h : String) (u : UserModel)
    (_hne : p ≠ "") (htrim : strTrim p = p)
    (hh : hash_pswd salt (some p) = .ok h)
    (hstored : u.password = some h) :
    verify_pswd_hash u p = .ok true := by
  simp only [hash_pswd] at hh
  rw [htrim] at hh
  cases hh
  simp only [verify_pswd_hash, hstored, bcryptVerify_renderHash]

/-- Witness for the amended C6: hashing `password1` with salt 7 and
verifying `password1` against the stored result returns `true`. -/
theorem hash_then_verify_roundtrip_witness :
    verify_pswd_hash (pwUser "$2b$12$7$password1") "password1" = .ok true :=
  hash_then_verify_roundtrip 7 "password1" "$2b$12$7$password1"
    (pwUser "$2b$12$7$password1") (by decide) (by decide) (by decide) rfl

/-- C7. For every payload missing any required field — firstname,
lastname, middlename, fullname, username, email or password — `validate`
collects (among whatever other violations the payload incurs) a
violation keyed by that field name with the `required` rule identifier. -/
theorem validate_names_missing_required_field (u : UserInformation) (f : String)
    (hf : f ∈ requiredFields) (hnone : requiredFieldValue u f = none) :
    (⟨f, .required⟩ : Violation) ∈ validate u := by
  simp only [requiredFields, List.mem_cons, List.not_mem_nil, or_false] at hf
  rcases hf with rfl | rfl | rfl | rfl | rfl | rfl | rfl
  · have hv : u.firstname = none := hnone
    simp [validate, checkRequiredMinLen, hv]
  · have hv : u.lastname = none := hnone
    simp [validate, checkRequiredMinLen, hv]
  · have hv : u.middlename = none := hnone
    simp [validate, checkRequiredMinLen, hv]
  · have hv : u.fullname = none := hnone
    simp [validate, checkRequiredMinLen, hv]
  · have hv : u.username = none := hnone
    simp [validate, checkRequiredMinLen, hv]
  · have hv : u.email = none := hnone
    simp [validate, checkRequiredEmail, hv]
  · have hv : u.password = none := hnone
    simp [validate, checkRequiredMinLen, hv]

/-- Witness for C7: the all-absent payload is missing `email`, and its
violation set names `email` with the `required` rule. -/
theorem validate_names_missing_required_field_witness :
    (⟨"email", .required⟩ : Violation) ∈ validate emptyInfo :=
  validate_names_missing_required_field emptyInfo "email" (by decide) rfl

/-- C8 as stated is false: the payload whose required fields are all
present and well-formed and whose phone is in E.164 form, but whose
(optional, unrequired) avatar is the string `x`, fails validation — the
avatar violates the url rule — so well-formed required fields alone do
not guarantee success. -/
theorem validate_fails_despite_wellformed_required_fields :
    specRequiredWellFormed badAvatarInfo = true ∧
    validate badAvatarInfo ≠ [] := by
  refine ⟨by decide, by decide⟩

/-- C8 amended: for every payload whose required fields are present and
well-formed (valid email, names of length at least 1, password of length
at least 8, phone in E.164 form) and whose avatar, when present, is a
well-formed URL, `validate` returns success. -/
theorem validate_succeeds_on_wellformed_payload (u : UserInformation)
    (hreq : specRequiredWellFormed u = true)
    (hav : avatarWellFormed u = true) :
    validate u = [] := by
  unfold specRequiredWellFormed at hreq
  simp only [Bool.and_eq_true] at hreq
  obtain ⟨⟨⟨⟨⟨⟨⟨h1, h2⟩, h3⟩, h4⟩, h5⟩, h6⟩, h7⟩, h8⟩ := hreq
  unfold avatarWellFormed at hav
  unfold validate
  rw [checkRequiredMinLen_eq_nil _ _ _ h1, checkRequiredMinLen_eq_nil _ _ _ h2,
    checkRequiredMinLen_eq_nil _ _ _ h3, checkRequiredMinLen_eq_nil _ _ _ h4,
    checkRequiredMinLen_eq_nil _ _ _ h5, checkRequiredEmail_eq_nil _ _ h6,
    checkRequiredMinLen_eq_nil _ _ _ h7, checkUrl_eq_nil _ _ hav,
    checkPhone_eq_nil _ _ (presentOrSatisfies_of_optSatisfies _ _ h8)]
  rfl

/-- Witness for the amended C8: the end-to-end payload of the spec (all
required fields well-formed, phone E.164, no avatar) validates cleanly. -/
theorem validate_succeeds_on_wellformed_payload_witness :
    validate wellFormedInfo = [] :=
  validate_succeeds_on_wellformed_payload wellFormedInfo (by decide) (by decide)

/-- C9. For every stored user, the externally serialized representation
carries exactly the stored-entity fields other than the hashed-password
field and the one-time-passcode reference: its keys are the declared
field keys with `password` and `otpId` filtered out, and neither excluded
key ever appears. -/
theorem serialization_excludes_password_and_otp (u : UserModel) :
    (serializeUserModel u).map Prod.fst =
      userModelFieldKeys.filter (fun k => k ≠ "password" && k ≠ "otpId") ∧
    "password" ∉ (serializeUserModel u).map Prod.fst ∧
    "otpId" ∉ (serializeUserModel u).map Prod.fst := by
  refine ⟨?_, ?_, ?_⟩ <;> simp [serializeUserModel, userModelFieldKeys]

/-- C10. Calling `verify_pswd_hash` on a stored user whose password
column is absent panics — `self.password.as_ref().unwrap()` — rather
than returning `false`: the presence of a stored password is an
unstated precondition of the call. -/
theorem verify_pswd_hash_panics_without_stored_password (u : UserModel)
    (raw : String) (h : u.password = none) :
    verify_pswd_hash u raw = .panicked := by
  unfold verify_pswd_hash
  rw [h]

/-- Witness for C10: verifying any candidate against the all-absent
stored row panics. -/
theorem verify_pswd_hash_panics_without_stored_password_witness :
    verify_pswd_hash baseUser "secret" = .panicked :=
  verify_pswd_hash_panics_without_stored_password baseUser "secret" rfl

end PortfolioBackend
